import Mathlib

/-!
Verification of the ozbargain live-ingestion and trending-alert engine.

This file gives a shallow embedding, in Lean 4, of the storage engine
(`ozbargain/db/manager.py`), of the alert-evaluation logic of the two
monitor entry points (`ozbargain/core/monitor.py` and the legacy
`live_monitor.py`), of the Telegram notifier (`notifier.py`) and of the
backfill archiving step (`fetch_user_activity.py`).  Machine integers are
modelled as `Int` (Python integers are unbounded), the SQLite tables as
Lean lists of rows, and the system clock as an explicit `Int` parameter
(seconds since the epoch).  The theorems at the end of the file settle the
behavioural claims about the program.
-/

/-! ## Python string primitives

The Python code manipulates strings with `str.strip`, `str.lower`,
`str.split`, the `in` substring operator and `int(...)`.  These are
modelled over `List Char` so that every definition evaluates by kernel
reduction. -/

/-- Lower-casing of one ASCII character, as `str.lower` acts on the ASCII
range used by the feed (`A`-`Z` map to `a`-`z`, everything else is kept). -/
def pyCharLower (c : Char) : Char :=
  if 'A' ≤ c ∧ c ≤ 'Z' then Char.ofNat (c.toNat + 32) else c

/-- Python `str.lower` on the character list of a string. -/
def pyLower (cs : List Char) : List Char := cs.map pyCharLower

/-- Python `str.strip()`: drop whitespace from both ends. -/
def pyStrip (cs : List Char) : List Char :=
  ((cs.dropWhile Char.isWhitespace).reverse.dropWhile Char.isWhitespace).reverse

/-- Whether `pat` occurs as a prefix of `cs` (helper for substring search). -/
def listStartsWith : List Char → List Char → Bool
  | [], _ => true
  | _ :: _, [] => false
  | p :: ps, c :: cs => p == c && listStartsWith ps cs

/-- Python substring containment `pat in s`, on character lists. -/
def listContainsSub (pat : List Char) : List Char → Bool
  | [] => pat.isEmpty
  | c :: cs => listStartsWith pat (c :: cs) || listContainsSub pat cs

/-- Python substring containment `pat in s` on strings. -/
def strContains (s pat : String) : Bool :=
  listContainsSub pat.toList s.toList

/-- Accumulator loop for `pySplitWs`: `cur` holds the characters of the
current word in reverse order. -/
def pySplitWsGo : List Char → List Char → List (List Char)
  | [], cur => if cur.isEmpty then [] else [cur.reverse]
  | c :: cs, cur =>
    if c.isWhitespace then
      if cur.isEmpty then pySplitWsGo cs [] else cur.reverse :: pySplitWsGo cs []
    else
      pySplitWsGo cs (c :: cur)

/-- Python `str.split()` with no argument: split on runs of whitespace,
discarding empty pieces. -/
def pySplitWs (cs : List Char) : List (List Char) := pySplitWsGo cs []

/-- Digit-string parsing: `some n` when the list is a nonempty run of
decimal digits. -/
def parseDigits (cs : List Char) : Option Nat :=
  if cs.isEmpty then none
  else if cs.all Char.isDigit then
    some (cs.foldl (fun a c => a * 10 + (c.toNat - 48)) 0)
  else none

/-- Python `int(s)` on a whitespace-free token: an optional sign followed
by decimal digits, `none` when the call would raise `ValueError`.
(Pythonic underscore digit grouping is not modelled; the feed tokens are
plain decimal.) -/
def pyParseInt (cs : List Char) : Option Int :=
  match cs with
  | '-' :: rest => (parseDigits rest).map (fun n => -(n : Int))
  | '+' :: rest => (parseDigits rest).map (fun n => (n : Int))
  | _ => (parseDigits cs).map (fun n => (n : Int))

/-- Python truthiness of an optional string (`None` and `""` are falsy). -/
def pyTruthy : Option String → Bool
  | none => false
  | some s => !s.isEmpty

/-- Items of the serialized tag list: `json.dumps` renders a list of
strings with `", "` separators (escaping of special characters elided). -/
def pyJsonItems : List String → String
  | [] => ""
  | [t] => "\"" ++ t ++ "\""
  | t :: ts => "\"" ++ t ++ "\", " ++ pyJsonItems ts

/-- `json.dumps` of a list of tag strings. -/
def pyJsonList (tags : List String) : String :=
  "[" ++ pyJsonItems tags ++ "]"

/-! ## Relative-time parsing

`LiveMonitor.parse_relative_time` (ozbargain/core/monitor.py lines 97-124,
identical in live_monitor.py lines 77-104).  The current time `now` and
the result are in seconds since the epoch; `timedelta(seconds|minutes|
hours|days = v)` is `v`, `60 v`, `3600 v`, `86400 v` seconds.  The
enclosing `try`/`except` returns `now` when `int(...)` raises, which is
modelled by the `none` branch of `pyParseInt`; every other operation in
the body is total. -/

/-- The preprocessing `time_str.strip().lower()`. -/
def pyNormalize (s : String) : List Char :=
  pyLower (pyStrip s.toList)

def parse_relative_time (now : Int) (time_str : String) : Int :=
  let s := pyNormalize time_str
  if listContainsSub "now".toList s then now
  else
    match pySplitWs s with
    | w0 :: w1 :: _ =>
      match pyParseInt w0 with
      | none => now
      | some v =>
        let delta : Int :=
          if listContainsSub "sec".toList w1 then v
          else if listContainsSub "min".toList w1 then v * 60
          else if listContainsSub "hour".toList w1 then v * 3600
          else if listContainsSub "day".toList w1 then v * 86400
          else 0
        now - delta
    | _ => now

/-! ## Alert history (ozbargain/db/manager.py lines 311-333)

Table `alert_history (deal_id, alert_type, timestamp, PRIMARY KEY
(deal_id, alert_type))`, with `has_alerted` and `log_alert`. -/

/-- One row of the `alert_history` table. -/
structure AlertRow where
  deal_id : String
  alert_type : String
  timestamp : Int
  deriving DecidableEq

/-- The `alert_history` table. -/
abbrev AlertHistory := List AlertRow

/-- `StorageManager.has_alerted`: `SELECT 1 FROM alert_history WHERE
deal_id = ? AND alert_type = ?` is nonempty. -/
def has_alerted (hist : AlertHistory) (dealId alertType : String) : Bool :=
  hist.any (fun r => r.deal_id == dealId && r.alert_type == alertType)

/-- `StorageManager.log_alert`: `INSERT OR IGNORE INTO alert_history`,
keyed by the composite primary key `(deal_id, alert_type)`; an existing
pair makes the insert a no-op instead of an error. -/
def log_alert (hist : AlertHistory) (dealId alertType : String) (now : Int) :
    AlertHistory :=
  if hist.any (fun r => r.deal_id == dealId && r.alert_type == alertType) then hist
  else hist ++ [⟨dealId, alertType, now⟩]

/-- Outcome of one alert-evaluation step: the updated alert history, how
many notification sends were attempted, and whether `log_alert` was
called. -/
structure AlertStepResult where
  hist : AlertHistory
  sends : Nat
  loggedCall : Bool
  deriving DecidableEq

/-- Alert evaluation for one deal and one alert type in the core monitor
(ozbargain/core/monitor.py): the trending path (lines 196-207) and the
inner priority path (lines 73-85) both run
`if not has_alerted: if send_message(...): log_alert(...)`.
`sendOk` is the truth value of the notifier call result. -/
def alert_eval_step (hist : AlertHistory) (now : Int) (dealId alertType : String)
    (sendOk : Bool) : AlertStepResult :=
  if has_alerted hist dealId alertType then ⟨hist, 0, false⟩
  else if sendOk then ⟨log_alert hist dealId alertType now, 1, true⟩
  else ⟨hist, 1, false⟩

/-- The priority-alert section of `LiveMonitor.process_deal` in the core
monitor (ozbargain/core/monitor.py lines 58-89): skip when the deal is
expired, intersect the watched tags with the deal tags, and when the
intersection is nonempty and the pair is not in the alert history, send;
`log_alert` runs only when the send returned a truthy value (line 81). -/
def core_priority_alert (hist : AlertHistory) (now : Int) (dealId : String)
    (isExpired : Bool) (watchedTags dealTags : List String) (sendOk : Bool) :
    AlertStepResult :=
  if isExpired then ⟨hist, 0, false⟩
  else if (watchedTags.filter (fun t => dealTags.contains t)).isEmpty then
    ⟨hist, 0, false⟩
  else if has_alerted hist dealId "priority" then ⟨hist, 0, false⟩
  else if sendOk then ⟨log_alert hist dealId "priority" now, 1, true⟩
  else ⟨hist, 1, false⟩

/-- The priority-alert section of `LiveMonitor.process_deal` in the legacy
monitor (live_monitor.py lines 41-69): same gating, but lines 63-64 call
`send_message` and then `log_alert` unconditionally, ignoring the send
result `_sendOk`. -/
def legacy_priority_alert (hist : AlertHistory) (now : Int) (dealId : String)
    (isExpired : Bool) (watchedTags dealTags : List String) (_sendOk : Bool) :
    AlertStepResult :=
  if isExpired then ⟨hist, 0, false⟩
  else if (watchedTags.filter (fun t => dealTags.contains t)).isEmpty then
    ⟨hist, 0, false⟩
  else if has_alerted hist dealId "priority" then ⟨hist, 0, false⟩
  else ⟨log_alert hist dealId "priority" now, 1, true⟩

/-! ## The Telegram notifier (notifier.py lines 16-52)

`TelegramNotifier.send_message` prints and executes `return` (no value)
in mock mode; in real mode it posts over HTTP inside a `try` whose
`except` only prints, and the function body ends without any `return`
statement.  In Python both paths produce `None`, modelled as `none`; a
boolean result would be `some true` or `some false`.  `httpOk` is the
outcome of the `requests.post` call (`true` when `raise_for_status` does
not raise). -/

/-- Constructor state of `TelegramNotifier`: the two environment-supplied
credentials. -/
structure TelegramNotifier where
  bot_token : Option String
  chat_id : Option String
  deriving DecidableEq

/-- `self.enabled = bool(self.bot_token and self.chat_id)`. -/
def TelegramNotifier.enabled (n : TelegramNotifier) : Bool :=
  pyTruthy n.bot_token && pyTruthy n.chat_id

/-- `TelegramNotifier.send_message` (notifier.py lines 25-52).  The value
is what the Python function returns. -/
def send_message (n : TelegramNotifier) (_text : String) (_priority : Bool)
    (httpOk : Bool) : Option Bool :=
  if !n.enabled then
    none
  else
    if httpOk then
      none
    else
      none

/-! ## Watched tags (ozbargain/db/manager.py lines 108-112 and 280-307)

`_initialize_db` creates `watched_tags (tag TEXT PRIMARY KEY)` - a single
column.  `add_watched_tag` executes `INSERT OR IGNORE INTO watched_tags
(tag, is_active) VALUES (?, 1)` and `get_watched_tags` executes `SELECT
tag FROM watched_tags WHERE is_active = 1`; both statements reference an
`is_active` column.  SQLite raises `sqlite3.OperationalError` when a
statement references a column that the table does not have, so the table
is modelled together with its column list. -/

/-- The `watched_tags` table: its columns and its rows (tag value and,
when the column exists, the `is_active` value). -/
structure WatchedTagsTable where
  columns : List String
  rows : List (String × Int)
  deriving DecidableEq

/-- Whether every column referenced by a statement exists in the table;
when false, `cursor.execute` raises `sqlite3.OperationalError`. -/
def sqlColsOk (tbl : WatchedTagsTable) (referenced : List String) : Bool :=
  referenced.all (fun c => tbl.columns.contains c)

/-- The `watched_tags` table as created by `_initialize_db` on a fresh
database: `CREATE TABLE IF NOT EXISTS watched_tags (tag TEXT PRIMARY
KEY)`, a single `tag` column and no rows. -/
def freshWatchedTags : WatchedTagsTable :=
  ⟨["tag"], []⟩

/-- `StorageManager.add_watched_tag`: `INSERT OR IGNORE INTO watched_tags
(tag, is_active) VALUES (?, 1)` inside `try ... except Exception: print`,
so an `OperationalError` (missing `is_active` column) is swallowed and
the table is left unchanged. -/
def add_watched_tag (tbl : WatchedTagsTable) (tag : String) : WatchedTagsTable :=
  if sqlColsOk tbl ["tag", "is_active"] then
    if tbl.rows.any (fun r => r.1 == tag) then tbl
    else { tbl with rows := tbl.rows ++ [(tag, 1)] }
  else tbl

/-- `StorageManager.remove_watched_tag`: `DELETE FROM watched_tags WHERE
tag = ?` (references only the `tag` column, which always exists). -/
def remove_watched_tag (tbl : WatchedTagsTable) (tag : String) : WatchedTagsTable :=
  { tbl with rows := tbl.rows.filter (fun r => !(r.1 == tag)) }

/-- `StorageManager.get_watched_tags`: `SELECT tag FROM watched_tags WHERE
is_active = 1`, with no `try` around the execute, so a missing `is_active`
column makes the call raise. -/
def get_watched_tags (tbl : WatchedTagsTable) : Except String (List String) :=
  if sqlColsOk tbl ["tag", "is_active"] then
    Except.ok ((tbl.rows.filter (fun r => r.2 == 1)).map (fun r => r.1))
  else
    Except.error "no such column: is_active"

/-! ## The live-deals store (ozbargain/db/manager.py lines 130-256)

`live_deals` has one row per canonical deal (primary key `resolved_id`),
and `deal_snapshots` is append-only.  `timestamp` values are seconds
since the epoch; the SQLite window predicate
`timestamp > datetime('now', '-H hours')` becomes
`now - H * 3600 < timestamp`. -/

/-- One row of the `live_deals` table, column for column. -/
structure DealRow where
  resolved_id : String
  resolved_url : String
  original_url : String
  title : Option String
  price : Option String
  description : Option String
  coupon_code : Option String
  tags : String
  upvotes : Int
  downvotes : Int
  comment_count : Int
  timestamp : Int
  time_str : Option String
  user : Option String
  action : Option String
  type : Option String
  is_expired : Option Int
  posted_date : Option String
  external_domain : Option String
  source : String
  deriving DecidableEq

/-- One row of the append-only `deal_snapshots` table (the autoincrement
`id` column is elided). -/
structure Snapshot where
  deal_id : String
  timestamp : Int
  upvotes : Int
  comment_count : Int
  deriving DecidableEq

/-- The persistent store: the `live_deals` and `deal_snapshots` tables. -/
structure Database where
  live_deals : List DealRow
  deal_snapshots : List Snapshot
  deriving DecidableEq

/-- The scraped-and-merged record handed to `upsert_live_deal` (the
`data` dict after `data.get` defaulting: missing integer counters are 0,
missing text fields are `None`, `url` is always present on every call
site). -/
structure DealData where
  id : Option String
  url : String
  title : Option String
  price : Option String
  description : Option String
  coupon_code : Option String
  tags : List String
  upvotes : Int
  downvotes : Int
  comment_count : Int
  is_expired : Bool
  posted_date : Option String
  external_domain : Option String
  time_str : Option String
  user : Option String
  action : Option String
  type : Option String
  deriving DecidableEq

/-- `resolved_id = data.get("id") or data.get("url")`: the Python `or`
falls through to the url when `id` is `None` or the empty string. -/
def resolvedId (data : DealData) : String :=
  match data.id with
  | some s => if s.isEmpty then data.url else s
  | none => data.url

/-- Row lookup by primary key (`SELECT ... WHERE resolved_id = ?`). -/
def getDeal (db : Database) (rid : String) : Option DealRow :=
  db.live_deals.find? (fun r => r.resolved_id == rid)

/-- The heat score `(upvotes * 2) + comment_count` computed by the
trending query. -/
def heat_score (r : DealRow) : Int :=
  r.upvotes * 2 + r.comment_count

/-- The post-guard upvotes of `upsert_live_deal` (ozbargain/db/manager.py
lines 148-162): read the existing row; when the incoming value is 0 and
the stored value is positive, keep the stored value. -/
def upsertUpvotes (db : Database) (data : DealData) : Int :=
  match getDeal db (resolvedId data) with
  | some r => if data.upvotes = 0 ∧ 0 < r.upvotes then r.upvotes else data.upvotes
  | none => data.upvotes

/-- The post-guard comment count of `upsert_live_deal` (lines 148-165),
guarded independently of the upvotes. -/
def upsertComments (db : Database) (data : DealData) : Int :=
  match getDeal db (resolvedId data) with
  | some r =>
    if data.comment_count = 0 ∧ 0 < r.comment_count then r.comment_count
    else data.comment_count
  | none => data.comment_count

/-- The `live_deals` row written by `upsert_live_deal` (lines 167-197),
column for column in the order of the INSERT statement. -/
def upsertRow (db : Database) (now : Int) (data : DealData) (source : String) :
    DealRow :=
  { resolved_id := resolvedId data
    resolved_url := data.url
    original_url := data.url
    title := data.title
    price := data.price
    description := data.description
    coupon_code := data.coupon_code
    tags := pyJsonList data.tags
    upvotes := upsertUpvotes db data
    downvotes := data.downvotes
    comment_count := upsertComments db data
    timestamp := now
    time_str := data.time_str
    user := data.user
    action := data.action
    type := data.type
    is_expired := some (if data.is_expired then 1 else 0)
    posted_date := data.posted_date
    external_domain := data.external_domain
    source := source }

/-- `StorageManager.upsert_live_deal` (ozbargain/db/manager.py lines
130-214): apply the data-integrity guard, write the `live_deals` row with
`INSERT OR REPLACE` keyed by `resolved_id`, append one `deal_snapshots`
row carrying the post-guard counters, and return the resolved id. -/
def upsert_live_deal (db : Database) (now : Int) (data : DealData)
    (source : String) : Database × String :=
  (⟨db.live_deals.filter (fun r => !(r.resolved_id == resolvedId data)) ++
      [upsertRow db now data source],
    db.deal_snapshots ++
      [⟨resolvedId data, now, upsertUpvotes db data, upsertComments db data⟩]⟩,
   resolvedId data)

/-- The WHERE clause of the trending query (ozbargain/db/manager.py lines
243-252): inside the window, heat score at least `minScore`, not expired
(`is_expired = 0 OR is_expired IS NULL`), and `source = 'live'`. -/
def trendKeep (now hours minScore : Int) (r : DealRow) : Bool :=
  decide (now - hours * 3600 < r.timestamp) &&
  decide (minScore ≤ heat_score r) &&
  (match r.is_expired with
   | some v => v == 0
   | none => true) &&
  (r.source == "live")

/-- The `ORDER BY heat_score DESC` ordering on result pairs. -/
def heatGe (p q : DealRow × Int) : Prop := q.2 ≤ p.2

instance : DecidableRel heatGe :=
  fun p q => inferInstanceAs (Decidable (q.2 ≤ p.2))

instance : IsTotal (DealRow × Int) heatGe :=
  ⟨fun p q => le_total q.2 p.2⟩

instance : IsTrans (DealRow × Int) heatGe :=
  ⟨fun _ _ _ h1 h2 => le_trans h2 h1⟩

/-- `StorageManager.get_trending_deals` (ozbargain/db/manager.py lines
229-256): filter `live_deals` by the WHERE clause, attach the selected
`heat_score` column, order by heat score descending, and apply `LIMIT`
only when `lim > 0`. -/
def get_trending_deals (db : Database) (now : Int) (hours lim minScore : Int) :
    List (DealRow × Int) :=
  let rows := (db.live_deals.filter (trendKeep now hours minScore)).map
    (fun r => (r, heat_score r))
  let ordered := List.insertionSort heatGe rows
  if 0 < lim then ordered.take lim.toNat else ordered

/-! ## User-activity archive (ozbargain/db/manager.py lines 337-350 and
fetch_user_activity.py lines 8-65)

`user_activity` has a UNIQUE `activity_ref` column and is written with
`INSERT OR REPLACE`, so a conflicting `activity_ref` deletes the old row
and inserts the new one.  `process_item` chooses the archived content and
reference from the fast-scraped record; when no comment content was
extracted and the feed text is not a "posted" line, it fabricates a fresh
reference `unknown-<epoch-milliseconds>`. -/

/-- One row of the `user_activity` table (autoincrement `id` elided). -/
structure ActivityRow where
  user_id : String
  deal_id : Option String
  activity_ref : String
  content : String
  activity_type : String
  timestamp : Int
  deriving DecidableEq

/-- The `user_activity` table. -/
abbrev ActivityTable := List ActivityRow

/-- `StorageManager.log_user_activity`: `INSERT OR REPLACE INTO
user_activity ...` keyed by the UNIQUE `activity_ref`. -/
def log_user_activity (tbl : ActivityTable) (user_id : String)
    (deal_id : Option String) (activity_ref content activity_type : String)
    (now : Int) : ActivityTable :=
  tbl.filter (fun r => !(r.activity_ref == activity_ref)) ++
    [⟨user_id, deal_id, activity_ref, content, activity_type, now⟩]

/-- The fields of the `scrape_deal_fast` record read by `process_item`. -/
structure FastDealData where
  id : Option String
  title : Option String
  linked_comment : Option String
  linked_comment_id : Option String
  deriving DecidableEq

/-- The archiving tail of `process_item` (fetch_user_activity.py lines
30-58), after the deal upsert: choose content, activity type and
reference, then `log_user_activity` when both reference and content are
truthy.  `clockMs` is `int(time.time() * 1000)` at the moment the
fallback reference is fabricated and `now` the row timestamp. -/
def process_item_archive (tbl : ActivityTable) (username text : String)
    (d : FastDealData) (clockMs now : Int) : ActivityTable :=
  let chosen : String × Option String × Option String :=
    if !pyTruthy d.linked_comment then
      if listContainsSub "posted".toList (pyLower text.toList) then
        ("post", d.title, d.id)
      else
        ("comment", some "[No Comment Content Extracted (Fast Mode)]",
          some ("unknown-" ++ toString clockMs))
    else ("comment", d.linked_comment, d.linked_comment_id)
  match chosen with
  | (ty, content, ref) =>
    if pyTruthy ref && pyTruthy content then
      log_user_activity tbl username d.id (ref.getD "") (content.getD "") ty now
    else tbl

/-- One backfill work item: the feed text of the activity row and the
result of `scrape_deal_fast` on its url (`none` when the scrape returned
an error record, in which case `process_item` writes nothing). -/
abbrev BackfillItem := String × Option FastDealData

/-- One backfill pass: process the items in order, each with the clock
value current when its worker ran. -/
def run_backfill (username : String) : ActivityTable → List (BackfillItem × Int) →
    ActivityTable
  | tbl, [] => tbl
  | tbl, (item, clock) :: rest =>
    let tbl' :=
      match item.2 with
      | none => tbl
      | some d => process_item_archive tbl username item.1 d clock clock
    run_backfill username tbl' rest

/-- An item whose archived reference does not depend on the clock: the
scrape failed (nothing is written), or a comment was extracted (the
reference is the comment id), or the feed text is a "posted" line (the
reference is the deal id).  The remaining items fall into the
`unknown-<clock>` fallback. -/
def stableItem (item : BackfillItem) : Prop :=
  match item.2 with
  | none => True
  | some d =>
    pyTruthy d.linked_comment = true ∨
      listContainsSub "posted".toList (pyLower item.1.toList) = true

/-- The clock-independent part of an archived row: every column except
the write timestamp. -/
def rowKey (r : ActivityRow) : String × Option String × String × String × String :=
  (r.user_id, r.deal_id, r.activity_ref, r.content, r.activity_type)

/-- The dedup reference of a row key. -/
def refOf (k : String × Option String × String × String × String) : String :=
  k.2.2.1

/-- The effect of one backfill item on row keys: `none` when the item
writes nothing, `some k` when it insert-or-replaces the row with key `k`. -/
abbrev ItemOp := Option (String × Option String × String × String × String)

/-- The key-level effect of one item, computed with the clock fixed at
`0`; for stable items this coincides with what `process_item_archive`
writes under any clock. -/
def itemOp (username : String) (item : BackfillItem) : ItemOp :=
  match item.2 with
  | none => none
  | some d =>
    let chosen : String × Option String × Option String :=
      if !pyTruthy d.linked_comment then
        if listContainsSub "posted".toList (pyLower item.1.toList) then
          ("post", d.title, d.id)
        else
          ("comment", some "[No Comment Content Extracted (Fast Mode)]",
            some ("unknown-" ++ toString (0 : Int)))
      else ("comment", d.linked_comment, d.linked_comment_id)
    match chosen with
    | (ty, content, ref) =>
      if pyTruthy ref && pyTruthy content then
        some (username, d.id, ref.getD "", content.getD "", ty)
      else none

/-- Apply one key-level item effect. -/
def keyStep (ks : List (String × Option String × String × String × String)) :
    ItemOp → List (String × Option String × String × String × String)
  | none => ks
  | some k => ks.filter (fun k2 => !(refOf k2 == refOf k)) ++ [k]

/-- Apply a list of key-level item effects in order. -/
def keyRun (ks : List (String × Option String × String × String × String)) :
    List ItemOp → List (String × Option String × String × String × String)
  | [] => ks
  | op :: rest => keyRun (keyStep ks op) rest

/-- The references touched by a list of item effects. -/
def opRefs (ops : List ItemOp) : List String :=
  ops.filterMap (fun op => op.map refOf)

/-! ## Helper lemmas -/

/-- Looking up a key in a replace-then-append list finds the appended
element: the preceding elements were filtered to fail the predicate. -/
theorem find?_filterNot_append {α : Type} (p : α → Bool) (l : List α) (x : α)
    (hx : p x = true) :
    ((l.filter (fun a => !p a)) ++ [x]).find? p = some x := by
  induction l with
  | nil => simp [List.find?, hx]
  | cons a l ih =>
    by_cases h : p a
    · simpa [List.filter_cons, h] using ih
    · simpa [List.filter_cons, h, List.find?, h] using ih

/-- Characterization of `upsert_live_deal`: the written row is found
under the resolved id, and exactly one snapshot carrying the written
counters is appended. -/
theorem upsert_characterization (db : Database) (now : Int) (data : DealData)
    (source : String) :
    getDeal (upsert_live_deal db now data source).1 (resolvedId data) =
      some (upsertRow db now data source) ∧
    (upsert_live_deal db now data source).1.deal_snapshots =
      db.deal_snapshots ++
        [⟨resolvedId data, now, (upsertRow db now data source).upvotes,
          (upsertRow db now data source).comment_count⟩] := by
  constructor
  · exact find?_filterNot_append (fun r => r.resolved_id == resolvedId data)
      db.live_deals (upsertRow db now data source)
      (beq_self_eq_true (resolvedId data))
  · rfl

/-- After a log, the pair is in the alert history. -/
theorem has_alerted_log_alert (hist : AlertHistory) (dealId alertType : String)
    (now : Int) :
    has_alerted (log_alert hist dealId alertType now) dealId alertType = true := by
  unfold log_alert has_alerted
  by_cases h : hist.any (fun r => r.deal_id == dealId && r.alert_type == alertType)
  · simp [h]
  · simp [h]

/-! ## Claim C1 -/

/-- Claim C1 (counterexample): in the legacy monitor (live_monitor.py
lines 63-64), with an empty alert history, a live unexpired deal
`node/1` whose tag `ssd` is watched, and a notifier send that FAILS, the
evaluation still attempts one send, still calls `log_alert`, and leaves
the `(node/1, priority)` pair recorded in the alert history, so a later
evaluation will not retry delivery. -/
theorem legacy_monitor_logs_alert_on_failed_send :
    (legacy_priority_alert [] 0 "node/1" false ["ssd"] ["ssd"] false).sends = 1 ∧
    (legacy_priority_alert [] 0 "node/1" false ["ssd"] ["ssd"] false).loggedCall = true ∧
    has_alerted (legacy_priority_alert [] 0 "node/1" false ["ssd"] ["ssd"] false).hist
      "node/1" "priority" = true := by
  decide

/-- Claim C1 (amended): in the core monitor (ozbargain/core/monitor.py),
for every deal id and alert type, `log_alert` is called if and only if a
notification send was attempted and returned success, on both the
trending/priority evaluation step shape (lines 73-85 and 196-207); the
legacy live_monitor.py instead calls `log_alert` unconditionally after
the send. -/
theorem monitor_logs_alert_iff_send_succeeded :
    (∀ (hist : AlertHistory) (now : Int) (dealId alertType : String) (sendOk : Bool),
      (alert_eval_step hist now dealId alertType sendOk).loggedCall = true ↔
        ((alert_eval_step hist now dealId alertType sendOk).sends = 1 ∧
          sendOk = true)) ∧
    (∀ (hist : AlertHistory) (now : Int) (dealId : String) (isExpired : Bool)
      (watchedTags dealTags : List String) (sendOk : Bool),
      (core_priority_alert hist now dealId isExpired watchedTags dealTags
          sendOk).loggedCall = true ↔
        ((core_priority_alert hist now dealId isExpired watchedTags dealTags
            sendOk).sends = 1 ∧ sendOk = true)) := by
  constructor
  · intro hist now dealId alertType sendOk
    unfold alert_eval_step
    split_ifs <;> simp_all
  · intro hist now dealId isExpired watchedTags dealTags sendOk
    unfold core_priority_alert
    split_ifs <;> simp_all

/-! ## Claim C2 -/

/-- Claim C2: each distinct alert fires at most once.  Starting from any
alert history in which `(dealId, alertType)` is absent, running the
monitor alert-evaluation step twice with a notifier that reports success
attempts exactly one send in total; `has_alerted` is false before the
first successful send (hypothesis) and true after it; and `log_alert` is
idempotent: a second call for an existing pair changes nothing and the
history holds exactly one row for the pair. -/
theorem alert_dedup_at_most_once (hist : AlertHistory) (now now2 now3 : Int)
    (dealId alertType : String)
    (h : has_alerted hist dealId alertType = false) :
    (alert_eval_step hist now dealId alertType true).sends +
      (alert_eval_step (alert_eval_step hist now dealId alertType true).hist
        now2 dealId alertType true).sends = 1 ∧
    has_alerted (alert_eval_step hist now dealId alertType true).hist
      dealId alertType = true ∧
    log_alert (log_alert hist dealId alertType now) dealId alertType now3 =
      log_alert hist dealId alertType now ∧
    (log_alert hist dealId alertType now).countP
      (fun r => r.deal_id == dealId && r.alert_type == alertType) = 1 := by
  have h' : (hist.any fun r => r.deal_id == dealId && r.alert_type == alertType)
      = false := h
  have hlogeq : log_alert hist dealId alertType now =
      hist ++ [AlertRow.mk dealId alertType now] := by
    unfold log_alert
    rw [if_neg]
    simp [h']
  have hany2 : ((hist ++ [AlertRow.mk dealId alertType now]).any
      fun r => r.deal_id == dealId && r.alert_type == alertType) = true := by
    simp
  have hlog : has_alerted (log_alert hist dealId alertType now) dealId alertType
      = true := by
    unfold has_alerted
    rw [hlogeq]
    exact hany2
  have hstep1 : alert_eval_step hist now dealId alertType true =
      AlertStepResult.mk (log_alert hist dealId alertType now) 1 true := by
    unfold alert_eval_step
    simp [h]
  refine ⟨?_, ?_, ?_, ?_⟩
  · rw [hstep1]
    simp [alert_eval_step, hlog]
  · rw [hstep1]
    exact hlog
  · rw [hlogeq]
    unfold log_alert
    rw [if_pos hany2]
  · rw [hlogeq, List.countP_append]
    have hzero : hist.countP
        (fun r => r.deal_id == dealId && r.alert_type == alertType) = 0 := by
      rw [List.countP_eq_zero]
      intro a ha
      simpa using List.any_eq_false.mp h' a ha
    simp [hzero, List.countP_cons]

/-- Claim C2 witness: concrete run from an empty history. -/
theorem alert_dedup_at_most_once_witness :
    has_alerted [] "node/1" "trending" = false ∧
    ((alert_eval_step [] 1 "node/1" "trending" true).sends +
      (alert_eval_step (alert_eval_step [] 1 "node/1" "trending" true).hist
        2 "node/1" "trending" true).sends = 1 ∧
    has_alerted (alert_eval_step [] 1 "node/1" "trending" true).hist
      "node/1" "trending" = true ∧
    log_alert (log_alert [] "node/1" "trending" 1) "node/1" "trending" 3 =
      log_alert [] "node/1" "trending" 1 ∧
    (log_alert [] "node/1" "trending" 1).countP
      (fun r => r.deal_id == "node/1" && r.alert_type == "trending") = 1) :=
  ⟨rfl, alert_dedup_at_most_once [] 1 2 3 "node/1" "trending" rfl⟩

/-! ## Claim C4 -/

/-- Claim C4: `TelegramNotifier.send_message` (notifier.py) never returns
a boolean.  In mock mode it prints the message and executes a bare
`return`; in real mode neither the successful-post path nor the caught
exception path has a `return` statement.  Every path yields Python
`None`, never `True` or `False`. -/
theorem send_message_never_returns_a_boolean :
    ∀ (n : TelegramNotifier) (text : String) (priority httpOk : Bool),
      send_message n text priority httpOk = none := by
  intro n text priority httpOk
  unfold send_message
  split_ifs <;> rfl

/-! ## Claim C9 -/

/-- Claim C9: on the schema that `_initialize_db` creates, the watched-tag
round trip is broken.  The `watched_tags` table has only a `tag` column,
but `add_watched_tag` inserts into `(tag, is_active)` - the resulting
`sqlite3.OperationalError` is swallowed and the tag is never stored - and
`get_watched_tags` filters on `is_active`, whose `OperationalError` is
not caught, so the call raises instead of returning a list. -/
theorem watched_tag_round_trip_broken_on_fresh_db :
    add_watched_tag freshWatchedTags "ssd" = freshWatchedTags ∧
    get_watched_tags (add_watched_tag freshWatchedTags "ssd") =
      Except.error "no such column: is_active" ∧
    get_watched_tags freshWatchedTags =
      Except.error "no such column: is_active" :=
  ⟨by decide, rfl, rfl⟩

/-! ## Claim C3 -/

/-- Claim C3: the data-integrity guard.  For every upsert of a deal that
already has a stored row, an incoming counter of exactly 0 with a stored
positive counter keeps the stored value; the rule applies independently
to each counter; and any nonzero incoming value (even one lower than the
stored value) is written as-is. -/
theorem upsert_integrity_guard (db : Database) (now : Int) (data : DealData)
    (source : String) (r : DealRow)
    (h : getDeal db (resolvedId data) = some r) :
    ∃ r', getDeal (upsert_live_deal db now data source).1 (resolvedId data) =
        some r' ∧
      (data.upvotes = 0 → 0 < r.upvotes → r'.upvotes = r.upvotes) ∧
      (data.upvotes ≠ 0 → r'.upvotes = data.upvotes) ∧
      (data.comment_count = 0 → 0 < r.comment_count →
        r'.comment_count = r.comment_count) ∧
      (data.comment_count ≠ 0 → r'.comment_count = data.comment_count) := by
  refine ⟨upsertRow db now data source,
    (upsert_characterization db now data source).1, ?_, ?_, ?_, ?_⟩
  · intro h0 hpos
    show upsertUpvotes db data = r.upvotes
    unfold upsertUpvotes
    rw [h]
    simp [h0, hpos]
  · intro hne
    show upsertUpvotes db data = data.upvotes
    unfold upsertUpvotes
    rw [h]
    simp [hne]
  · intro h0 hpos
    show upsertComments db data = r.comment_count
    unfold upsertComments
    rw [h]
    simp [h0, hpos]
  · intro hne
    show upsertComments db data = data.comment_count
    unfold upsertComments
    rw [h]
    simp [hne]

/-- Stored row used by the Claim C3 witness. -/
def c3row : DealRow :=
  ⟨"node/9", "u", "u", some "T", none, none, none, "[]", 10, 0, 7, 100,
    none, none, none, none, some 0, none, none, "live"⟩

/-- Store used by the Claim C3 witness. -/
def c3db : Database := ⟨[c3row], []⟩

/-- Incoming record used by the Claim C3 witness: a degraded scrape with
0 upvotes and a genuinely lower-but-nonzero comment count. -/
def c3data : DealData :=
  ⟨some "node/9", "u", some "T", none, none, none, [], 0, 0, 3, false,
    none, none, none, none, none, none⟩

/-- Claim C3 witness: concrete guarded upsert over an existing row. -/
theorem upsert_integrity_guard_witness :
    getDeal c3db (resolvedId c3data) = some c3row ∧
    (∃ r', getDeal (upsert_live_deal c3db 200 c3data "live").1
        (resolvedId c3data) = some r' ∧
      (c3data.upvotes = 0 → 0 < c3row.upvotes → r'.upvotes = c3row.upvotes) ∧
      (c3data.upvotes ≠ 0 → r'.upvotes = c3data.upvotes) ∧
      (c3data.comment_count = 0 → 0 < c3row.comment_count →
        r'.comment_count = c3row.comment_count) ∧
      (c3data.comment_count ≠ 0 → r'.comment_count = c3data.comment_count)) :=
  ⟨rfl, upsert_integrity_guard c3db 200 c3data "live" c3row rfl⟩

/-! ## Claim C6 -/

/-- Claim C6: every upsert appends exactly one `deal_snapshots` row, and
that snapshot carries the counters actually written to the `live_deals`
row after the integrity guard was applied (the post-guard values), not
the raw incoming values. -/
theorem upsert_appends_one_snapshot_post_guard (db : Database) (now : Int)
    (data : DealData) (source : String) :
    ∃ r', getDeal (upsert_live_deal db now data source).1 (resolvedId data) =
        some r' ∧
      (upsert_live_deal db now data source).1.deal_snapshots =
        db.deal_snapshots ++
          [⟨resolvedId data, now, r'.upvotes, r'.comment_count⟩] ∧
      r'.upvotes = upsertUpvotes db data ∧
      r'.comment_count = upsertComments db data := by
  obtain ⟨h1, h2⟩ := upsert_characterization db now data source
  exact ⟨upsertRow db now data source, h1, h2, rfl, rfl⟩

/-! ## Claim C5 -/

/-- The not-expired test of the WHERE clause as a proposition. -/
theorem expired_ok_iff (e : Option Int) :
    (match e with
      | some v => v == 0
      | none => true) = true ↔ (e = some 0 ∨ e = none) := by
  cases e with
  | none => simp
  | some v => simp [beq_iff_eq]

/-- Every member of a trending result is a stored row passing the WHERE
clause. -/
theorem mem_get_trending (db : Database) (now hours lim minScore : Int)
    (p : DealRow × Int)
    (hp : p ∈ get_trending_deals db now hours lim minScore) :
    p.1 ∈ db.live_deals ∧ trendKeep now hours minScore p.1 = true := by
  unfold get_trending_deals at hp
  have hp' : p ∈ List.insertionSort heatGe
      ((db.live_deals.filter (trendKeep now hours minScore)).map
        (fun r => (r, heat_score r))) := by
    by_cases h : 0 < lim
    · rw [if_pos h] at hp
      exact List.take_subset _ _ hp
    · rwa [if_neg h] at hp
  have hp2 := (List.perm_insertionSort heatGe _).mem_iff.mp hp'
  obtain ⟨r, hr, heq⟩ := List.mem_map.mp hp2
  obtain ⟨hr1, hr2⟩ := List.mem_filter.mp hr
  cases heq
  exact ⟨hr1, hr2⟩

/-- Claim C5: with a nonpositive limit (no bound), `get_trending_deals`
returns exactly the stored deals inside the window, live-sourced, not
expired and with heat score at least `minScore`, each paired with its
heat score, ordered by heat score descending. -/
theorem get_trending_deals_spec (db : Database) (now hours minScore lim : Int)
    (hlim : lim ≤ 0) :
    List.Sorted heatGe (get_trending_deals db now hours lim minScore) ∧
    (get_trending_deals db now hours lim minScore).Perm
      ((db.live_deals.filter (trendKeep now hours minScore)).map
        (fun r => (r, heat_score r))) ∧
    ∀ (r : DealRow) (s : Int),
      ((r, s) ∈ get_trending_deals db now hours lim minScore ↔
        (r ∈ db.live_deals ∧ now - hours * 3600 < r.timestamp ∧
          r.source = "live" ∧ (r.is_expired = some 0 ∨ r.is_expired = none) ∧
          minScore ≤ heat_score r ∧ s = heat_score r)) := by
  have hnl : ¬(0 < lim) := not_lt.mpr hlim
  have hres : get_trending_deals db now hours lim minScore =
      List.insertionSort heatGe
        ((db.live_deals.filter (trendKeep now hours minScore)).map
          (fun r => (r, heat_score r))) := by
    unfold get_trending_deals
    rw [if_neg hnl]
  refine ⟨?_, ?_, ?_⟩
  · rw [hres]
    exact List.sorted_insertionSort heatGe _
  · rw [hres]
    exact List.perm_insertionSort heatGe _
  · intro r s
    rw [hres, (List.perm_insertionSort heatGe _).mem_iff]
    constructor
    · intro hmem
      obtain ⟨a, ha, heq⟩ := List.mem_map.mp hmem
      obtain ⟨ha1, ha2⟩ := List.mem_filter.mp ha
      cases heq
      unfold trendKeep at ha2
      simp only [Bool.and_eq_true, decide_eq_true_eq, beq_iff_eq] at ha2
      exact ⟨ha1, ha2.1.1.1, ha2.2, (expired_ok_iff _).mp ha2.1.2, ha2.1.1.2, rfl⟩
    · rintro ⟨hmem, hA, hS, hM, hB, rfl⟩
      refine List.mem_map.mpr ⟨r, List.mem_filter.mpr ⟨hmem, ?_⟩, rfl⟩
      unfold trendKeep
      simp only [Bool.and_eq_true, decide_eq_true_eq, beq_iff_eq]
      exact ⟨⟨⟨hA, hB⟩, (expired_ok_iff _).mpr hM⟩, hS⟩

/-- Deal A of the Claim C5 witness: live, not expired, heat 25. -/
def c5A : DealRow :=
  ⟨"node/1", "u1", "u1", some "A", none, none, none, "[]", 10, 0, 5, 500,
    none, none, none, none, some 0, none, none, "live"⟩

/-- Deal B of the Claim C5 witness: same stats but backfill-sourced. -/
def c5B : DealRow :=
  ⟨"node/2", "u2", "u2", some "B", none, none, none, "[]", 10, 0, 5, 500,
    none, none, none, none, some 0, none, none, "manual_fetch"⟩

/-- Deal C of the Claim C5 witness: heat 100 but expired. -/
def c5C : DealRow :=
  ⟨"node/3", "u3", "u3", some "C", none, none, none, "[]", 50, 0, 0, 500,
    none, none, none, none, some 1, none, none, "live"⟩

/-- Store used by the Claim C5 witness. -/
def c5db : Database := ⟨[c5A, c5B, c5C], []⟩

/-- Claim C5 witness: with `minScore = 20` only deal A qualifies, carrying
heat score 25, and the theorem applies at the concrete store. -/
theorem get_trending_deals_spec_witness :
    ((-1 : Int) ≤ 0 ∧ get_trending_deals c5db 600 24 (-1) 20 = [(c5A, 25)]) ∧
    (List.Sorted heatGe (get_trending_deals c5db 600 24 (-1) 20) ∧
    (get_trending_deals c5db 600 24 (-1) 20).Perm
      ((c5db.live_deals.filter (trendKeep 600 24 20)).map
        (fun r => (r, heat_score r))) ∧
    ∀ (r : DealRow) (s : Int),
      ((r, s) ∈ get_trending_deals c5db 600 24 (-1) 20 ↔
        (r ∈ c5db.live_deals ∧ 600 - 24 * 3600 < r.timestamp ∧
          r.source = "live" ∧ (r.is_expired = some 0 ∨ r.is_expired = none) ∧
          20 ≤ heat_score r ∧ s = heat_score r))) :=
  ⟨⟨by norm_num, by decide⟩, get_trending_deals_spec c5db 600 24 20 (-1) (by norm_num)⟩

/-! ## Claim C10 -/

/-- Claim C10: a backfill upsert demotes trending eligibility.  For a
deal whose stored row is live-sourced, upserting the same resolved id
with source `manual_fetch` overwrites the stored source, and thereafter
no `get_trending_deals` result (for any window, score or limit) contains
that deal until a later live upsert. -/
theorem backfill_upsert_demotes_trending (db : Database) (now : Int)
    (data : DealData) (r : DealRow)
    (h1 : getDeal db (resolvedId data) = some r) (h2 : r.source = "live") :
    (∃ r', getDeal (upsert_live_deal db now data "manual_fetch").1
        (resolvedId data) = some r' ∧ r'.source = "manual_fetch") ∧
    ∀ (now2 hours lim minScore : Int) (p : DealRow × Int),
      p ∈ get_trending_deals (upsert_live_deal db now data "manual_fetch").1
        now2 hours lim minScore →
      p.1.resolved_id ≠ resolvedId data := by
  constructor
  · exact ⟨upsertRow db now data "manual_fetch",
      (upsert_characterization db now data "manual_fetch").1, rfl⟩
  · intro now2 hours lim minScore p hp hrid
    obtain ⟨hmem, hkeep⟩ := mem_get_trending _ now2 hours lim minScore p hp
    have hsrc : p.1.source = "manual_fetch" := by
      have hmem' : p.1 ∈
          db.live_deals.filter (fun r2 => !(r2.resolved_id == resolvedId data)) ++
            [upsertRow db now data "manual_fetch"] := hmem
      rcases List.mem_append.mp hmem' with hin | hin
      · exfalso
        have hpred := (List.mem_filter.mp hin).2
        rw [hrid] at hpred
        simp at hpred
      · have heqr : p.1 = upsertRow db now data "manual_fetch" := by
          simpa using hin
        rw [heqr]
        rfl
    unfold trendKeep at hkeep
    simp only [Bool.and_eq_true, decide_eq_true_eq, beq_iff_eq] at hkeep
    rw [hsrc] at hkeep
    exact absurd hkeep.2 (by decide)

/-- Live row used by the Claim C10 witness. -/
def c10row : DealRow :=
  ⟨"node/4", "u4", "u4", some "D", none, none, none, "[]", 30, 0, 10, 500,
    none, none, none, none, some 0, none, none, "live"⟩

/-- Store used by the Claim C10 witness. -/
def c10db : Database := ⟨[c10row], []⟩

/-- Backfill record used by the Claim C10 witness. -/
def c10data : DealData :=
  ⟨some "node/4", "u4", some "D", none, none, none, [], 30, 0, 10, false,
    none, none, none, none, none, none⟩

/-- Claim C10 witness: concrete demotion of a live row by a backfill
upsert. -/
theorem backfill_upsert_demotes_trending_witness :
    (getDeal c10db (resolvedId c10data) = some c10row ∧ c10row.source = "live") ∧
    ((∃ r', getDeal (upsert_live_deal c10db 600 c10data "manual_fetch").1
        (resolvedId c10data) = some r' ∧ r'.source = "manual_fetch") ∧
    ∀ (now2 hours lim minScore : Int) (p : DealRow × Int),
      p ∈ get_trending_deals (upsert_live_deal c10db 600 c10data "manual_fetch").1
        now2 hours lim minScore →
      p.1.resolved_id ≠ resolvedId c10data) :=
  ⟨⟨rfl, rfl⟩, backfill_upsert_demotes_trending c10db 600 c10data c10row rfl rfl⟩

/-! ## Claim C8 -/

/-- Seconds per unit named in the specification
(`sec`, `min`, `hour`, `day`). -/
def unitSeconds (unit : String) : Int :=
  if unit = "sec" then 1
  else if unit = "min" then 60
  else if unit = "hour" then 3600
  else if unit = "day" then 86400
  else 0

/-- Reduction of `parse_relative_time` on an input that passes the
`"now"` test, splits into at least two words, and whose first word parses
as an integer. -/
theorem parse_relative_time_reduce (now : Int) (s : String) (w0 w1 : List Char)
    (rest : List (List Char)) (n : Int)
    (hnow : listContainsSub "now".toList (pyNormalize s) = false)
    (hsplit : pySplitWs (pyNormalize s) = w0 :: w1 :: rest)
    (hint : pyParseInt w0 = some n) :
    parse_relative_time now s =
      now - (if listContainsSub "sec".toList w1 then n
        else if listContainsSub "min".toList w1 then n * 60
        else if listContainsSub "hour".toList w1 then n * 3600
        else if listContainsSub "day".toList w1 then n * 86400
        else 0) := by
  simp only [parse_relative_time, hnow, hsplit, hint, Bool.false_eq_true,
    if_false]

/-- Claim C8: relative-time parsing is total (the Lean function returns a
time for every string, as the Python `try`/`except` never lets an
exception escape) and maps each class of inputs as specified: a string
containing `now` to the current time; a two-word `<n> unit` form with
`unit` one of `sec`, `min`, `hour`, `day` to the current time minus `n`
of that unit; and unparseable inputs - fewer than two words, a
non-integer first word, or an unrecognized unit word - to the current
time. -/
theorem parse_relative_time_total_spec :
    (∀ (now : Int) (s : String),
      listContainsSub "now".toList (pyNormalize s) = true →
      parse_relative_time now s = now) ∧
    (∀ (now : Int) (s : String) (w0 w1 : List Char) (rest : List (List Char))
      (n : Int) (unit : String),
      listContainsSub "now".toList (pyNormalize s) = false →
      pySplitWs (pyNormalize s) = w0 :: w1 :: rest →
      pyParseInt w0 = some n →
      w1 = unit.toList →
      (unit = "sec" ∨ unit = "min" ∨ unit = "hour" ∨ unit = "day") →
      parse_relative_time now s = now - n * unitSeconds unit) ∧
    (∀ (now : Int) (s : String),
      listContainsSub "now".toList (pyNormalize s) = false →
      (pySplitWs (pyNormalize s)).length < 2 →
      parse_relative_time now s = now) ∧
    (∀ (now : Int) (s : String) (w0 w1 : List Char) (rest : List (List Char)),
      listContainsSub "now".toList (pyNormalize s) = false →
      pySplitWs (pyNormalize s) = w0 :: w1 :: rest →
      pyParseInt w0 = none →
      parse_relative_time now s = now) ∧
    (∀ (now : Int) (s : String) (w0 w1 : List Char) (rest : List (List Char))
      (n : Int),
      listContainsSub "now".toList (pyNormalize s) = false →
      pySplitWs (pyNormalize s) = w0 :: w1 :: rest →
      pyParseInt w0 = some n →
      listContainsSub "sec".toList w1 = false →
      listContainsSub "min".toList w1 = false →
      listContainsSub "hour".toList w1 = false →
      listContainsSub "day".toList w1 = false →
      parse_relative_time now s = now) := by
  refine ⟨?_, ?_, ?_, ?_, ?_⟩
  · intro now s hnow
    have hnow2 : listContainsSub ['n', 'o', 'w'] (pyNormalize s) = true := hnow
    simp [parse_relative_time, hnow2]
  · intro now s w0 w1 rest n unit hnow hsplit hint hw1 hu
    subst hw1
    rw [parse_relative_time_reduce now s w0 _ rest n hnow hsplit hint]
    rcases hu with rfl | rfl | rfl | rfl
    · rw [show listContainsSub "sec".toList "sec".toList = true from rfl]
      simp [unitSeconds]
    · rw [show listContainsSub "sec".toList "min".toList = false from rfl,
        show listContainsSub "min".toList "min".toList = true from rfl]
      simp [unitSeconds]
    · rw [show listContainsSub "sec".toList "hour".toList = false from rfl,
        show listContainsSub "min".toList "hour".toList = false from rfl,
        show listContainsSub "hour".toList "hour".toList = true from rfl]
      simp [unitSeconds]
    · rw [show listContainsSub "sec".toList "day".toList = false from rfl,
        show listContainsSub "min".toList "day".toList = false from rfl,
        show listContainsSub "hour".toList "day".toList = false from rfl,
        show listContainsSub "day".toList "day".toList = true from rfl]
      simp [unitSeconds]
  · intro now s hnow hlen
    rcases hsp : pySplitWs (pyNormalize s) with - | ⟨w0, tail⟩
    · simp [parse_relative_time, hnow, hsp]
    · rcases tail with - | ⟨w1, rest⟩
      · simp [parse_relative_time, hnow, hsp]
      · rw [hsp] at hlen
        simp only [List.length_cons] at hlen
        omega
  · intro now s w0 w1 rest hnow hsplit hint
    simp [parse_relative_time, hnow, hsplit, hint]
  · intro now s w0 w1 rest n hnow hsplit hint hsec hmin hhour hday
    rw [parse_relative_time_reduce now s w0 w1 rest n hnow hsplit hint]
    rw [hsec, hmin, hhour, hday]
    simp

/-- Claim C8 witness: the concrete feed phrase `5 min`. -/
theorem parse_relative_time_total_spec_witness :
    (listContainsSub "now".toList (pyNormalize "5 min") = false ∧
      pySplitWs (pyNormalize "5 min") = "5".toList :: "min".toList :: [] ∧
      pyParseInt "5".toList = some 5) ∧
    parse_relative_time 1000 "5 min" = 1000 - 5 * unitSeconds "min" :=
  ⟨⟨rfl, rfl, rfl⟩,
    parse_relative_time_total_spec.2.1 1000 "5 min" "5".toList "min".toList []
      5 "min" rfl rfl rfl rfl (Or.inr (Or.inl rfl))⟩

/-! ## Claim C7 -/

/-- Mapping a table to row keys commutes with the replace-step filter,
because the dedup reference is part of the key. -/
theorem mapKey_filter (tbl : ActivityTable) (ref : String) :
    (tbl.filter (fun r => !(r.activity_ref == ref))).map rowKey =
      (tbl.map rowKey).filter (fun k => !(refOf k == ref)) := by
  induction tbl with
  | nil => rfl
  | cons a t ih =>
    by_cases h : a.activity_ref == ref
    · simp [List.filter_cons, rowKey, refOf, h, ih]
    · simp [List.filter_cons, rowKey, refOf, h, ih]

/-- For a stable item, `process_item_archive` acts on row keys exactly as
the clock-free `itemOp` effect. -/
theorem mapKey_process_item (tbl : ActivityTable) (username text : String)
    (d : FastDealData) (c : Int)
    (h : pyTruthy d.linked_comment = true ∨
      listContainsSub "posted".toList (pyLower text.toList) = true) :
    (process_item_archive tbl username text d c c).map rowKey =
      keyStep (tbl.map rowKey) (itemOp username (text, some d)) := by
  by_cases hlc : pyTruthy d.linked_comment = true
  · unfold process_item_archive itemOp
    rw [hlc]
    by_cases hid : pyTruthy d.linked_comment_id = true
    · simp only [hid, Bool.not_true, Bool.false_eq_true, if_false,
        Bool.true_and, Bool.and_true, hlc, if_true]
      simp [log_user_activity, keyStep, mapKey_filter, rowKey, refOf, hid, hlc]
    · have hid' : pyTruthy d.linked_comment_id = false := by
        simpa using hid
      simp [log_user_activity, keyStep, rowKey, refOf, hid', hlc]
  · have hlc' : pyTruthy d.linked_comment = false := by
      simpa using hlc
    have hp : listContainsSub "posted".toList (pyLower text.toList) = true :=
      h.resolve_left hlc
    unfold process_item_archive itemOp
    rw [hlc', hp]
    by_cases hid : pyTruthy d.id = true
    · by_cases htl : pyTruthy d.title = true
      · simp [hlc', hid, htl, log_user_activity, keyStep, mapKey_filter,
          rowKey, refOf]
      · simp [hlc', hid, htl, keyStep]
    · simp [hlc', hid, keyStep]

/-- A backfill pass over stable items acts on row keys as the key-level
run of the items' effects. -/
theorem mapKey_run_backfill (username : String) (tbl : ActivityTable)
    (pairs : List (BackfillItem × Int))
    (h : ∀ p ∈ pairs, stableItem p.1) :
    (run_backfill username tbl pairs).map rowKey =
      keyRun (tbl.map rowKey) (pairs.map (fun p => itemOp username p.1)) := by
  induction pairs generalizing tbl with
  | nil => rfl
  | cons p rest ih =>
    obtain ⟨⟨text, od⟩, clock⟩ := p
    cases od with
    | none =>
      simp only [run_backfill, List.map_cons, keyRun, itemOp, keyStep]
      exact ih tbl (fun q hq => h q (List.mem_cons_of_mem _ hq))
    | some d =>
      have hst : stableItem (text, some d) := h _ (List.mem_cons_self _ _)
      simp only [run_backfill, List.map_cons, keyRun]
      rw [ih _ (fun q hq => h q (List.mem_cons_of_mem _ hq))]
      exact congrArg (fun ks => keyRun ks _)
        (mapKey_process_item tbl username text d clock hst)

/-- Decomposition of a key-level run: the surviving prefix of the initial
keys (those whose reference is never touched) followed by the keys the
run itself inserts. -/
theorem keyRun_decompose (L : List ItemOp)
    (ks : List (String × Option String × String × String × String)) :
    keyRun ks L =
      ks.filter (fun k => !decide (refOf k ∈ opRefs L)) ++ keyRun [] L := by
  induction L generalizing ks with
  | nil => simp [keyRun, opRefs]
  | cons op L' ih =>
    cases op with
    | none =>
      have hop : opRefs (none :: L') = opRefs L' := rfl
      simp only [keyRun, keyStep, hop]
      exact ih ks
    | some k =>
      have hop : opRefs (some k :: L') = refOf k :: opRefs L' := rfl
      simp only [keyRun, keyStep, hop, List.filter_nil, List.nil_append]
      rw [ih (ks.filter (fun k2 => !(refOf k2 == refOf k)) ++ [k]), ih [k]]
      rw [List.filter_append, List.filter_filter, List.append_assoc]
      congr 1
      apply List.filter_congr
      intro x _
      by_cases h1 : refOf x = refOf k <;> by_cases h2 : refOf x ∈ opRefs L' <;>
        simp [h1, h2, List.mem_cons]

/-- Every key inserted by a run from the empty table has a reference
touched by the run. -/
theorem keyRun_nil_refs (L : List ItemOp) :
    ∀ x ∈ keyRun [] L, refOf x ∈ opRefs L := by
  induction L with
  | nil => intro x hx; cases hx
  | cons op L' ih =>
    cases op with
    | none =>
      intro x hx
      exact ih x hx
    | some k =>
      intro x hx
      have hop : opRefs (some k :: L') = refOf k :: opRefs L' := rfl
      rw [hop]
      have hx' : x ∈ keyRun [k] L' := hx
      rw [keyRun_decompose L' [k]] at hx'
      rcases List.mem_append.mp hx' with hin | hin
      · have : x ∈ [k] := List.mem_of_mem_filter hin
        rw [List.mem_singleton] at this
        rw [this]
        exact List.mem_cons_self _ _
      · exact List.mem_cons_of_mem _ (ih x hin)

/-- A key-level run is idempotent: running the same effects again over
its own output changes nothing. -/
theorem keyRun_idempotent (L : List ItemOp)
    (ks : List (String × Option String × String × String × String)) :
    keyRun (keyRun ks L) L = keyRun ks L := by
  rw [keyRun_decompose L ks, keyRun_decompose L
    (ks.filter (fun k => !decide (refOf k ∈ opRefs L)) ++ keyRun [] L)]
  rw [List.filter_append, List.filter_filter]
  have h1 : (ks.filter fun k =>
      decide (refOf k ∈ opRefs L) = false && !decide (refOf k ∈ opRefs L)) =
      ks.filter (fun k => !decide (refOf k ∈ opRefs L)) := by
    apply List.filter_congr
    intro x _
    by_cases h : refOf x ∈ opRefs L <;> simp [h]
  have h2 : (keyRun [] L).filter (fun k => !decide (refOf k ∈ opRefs L)) = [] := by
    rw [List.filter_eq_nil_iff]
    intro x hx
    simp [keyRun_nil_refs L x hx]
  rw [h2, List.append_nil]
  congr 1
  apply List.filter_congr
  intro x _
  by_cases h : refOf x ∈ opRefs L <;> simp [h]

/-- One key-level step preserves distinctness of references. -/
theorem keyStep_refs_nodup
    (ks : List (String × Option String × String × String × String))
    (op : ItemOp) (h : (ks.map refOf).Nodup) :
    ((keyStep ks op).map refOf).Nodup := by
  cases op with
  | none => exact h
  | some k =>
    simp only [keyStep, List.map_append]
    apply List.Nodup.append
    · exact ((List.filter_sublist ks).map refOf).nodup h
    · exact List.nodup_singleton _
    · intro a ha hb
      simp only [List.map_cons, List.map_nil, List.mem_singleton] at hb
      obtain ⟨x, hx, hax⟩ := List.mem_map.mp ha
      have hpred := List.of_mem_filter hx
      rw [hax, hb] at hpred
      simp at hpred

/-- A key-level run preserves distinctness of references. -/
theorem keyRun_refs_nodup (L : List ItemOp)
    (ks : List (String × Option String × String × String × String))
    (h : (ks.map refOf).Nodup) :
    ((keyRun ks L).map refOf).Nodup := by
  induction L generalizing ks with
  | nil => exact h
  | cons op L' ih => exact ih _ (keyStep_refs_nodup ks op h)

/-- Claim C7 (counterexample): an activity item with no extractable
comment content and a feed text that is not a "posted" line falls into
the `unknown-<epoch-ms>` fallback; the reference is fresh on every run,
so running the backfill archiving twice over this one item leaves TWO
rows (with the two distinct fabricated references) where one run leaves
one - not the same set of rows. -/
theorem backfill_duplicates_fallback_refs :
    (process_item_archive
      (process_item_archive [] "alice" "voted up" ⟨some "node/1", some "T", none, none⟩ 1000 1000)
      "alice" "voted up" ⟨some "node/1", some "T", none, none⟩ 2000 2000).length = 2 ∧
    (process_item_archive [] "alice" "voted up"
      ⟨some "node/1", some "T", none, none⟩ 1000 1000).length = 1 ∧
    (process_item_archive
      (process_item_archive [] "alice" "voted up" ⟨some "node/1", some "T", none, none⟩ 1000 1000)
      "alice" "voted up" ⟨some "node/1", some "T", none, none⟩ 2000 2000).map
        (fun r => r.activity_ref) = ["unknown-1000", "unknown-2000"] := by
  decide

/-- Claim C7 (amended): backfill is idempotent for items that resolve a
clock-independent activity reference (an extracted comment id, or the
deal id of a "posted" line); for those, running the archiving over the
same item sequence twice yields the same rows as one run up to the write
timestamps, with references pairwise distinct, because `activity_ref` is
unique and `log_user_activity` is insert-or-replace on it.  Items in the
no-content fallback receive a fresh `unknown-<epoch-ms>` reference each
run and are therefore excluded. -/
theorem backfill_idempotent_for_stable_refs (username : String)
    (tbl : ActivityTable) (items : List BackfillItem)
    (pairs1 pairs2 : List (BackfillItem × Int))
    (h1 : pairs1.map Prod.fst = items) (h2 : pairs2.map Prod.fst = items)
    (hstable : ∀ it ∈ items, stableItem it)
    (hnd : ((tbl.map rowKey).map refOf).Nodup) :
    (run_backfill username (run_backfill username tbl pairs1) pairs2).map rowKey =
      (run_backfill username tbl pairs1).map rowKey ∧
    (((run_backfill username tbl pairs1).map rowKey).map refOf).Nodup := by
  have hs1 : ∀ p ∈ pairs1, stableItem p.1 := by
    intro p hp
    apply hstable
    rw [← h1]
    exact List.mem_map_of_mem Prod.fst hp
  have hs2 : ∀ p ∈ pairs2, stableItem p.1 := by
    intro p hp
    apply hstable
    rw [← h2]
    exact List.mem_map_of_mem Prod.fst hp
  have hops1 : pairs1.map (fun p => itemOp username p.1) =
      items.map (itemOp username) := by
    rw [← h1, List.map_map]
    rfl
  have hops2 : pairs2.map (fun p => itemOp username p.1) =
      items.map (itemOp username) := by
    rw [← h2, List.map_map]
    rfl
  have hrun1 := mapKey_run_backfill username tbl pairs1 hs1
  constructor
  · rw [mapKey_run_backfill username _ pairs2 hs2, hrun1, hops1, hops2]
    exact keyRun_idempotent _ _
  · rw [hrun1]
    exact keyRun_refs_nodup _ _ hnd

/-- Stable backfill item used by the Claim C7 witness: a comment with an
extracted id. -/
def c7item : BackfillItem :=
  ("commented on a deal", some ⟨some "node/1", some "T", some "nice deal", some "comment-5"⟩)

/-- Claim C7 witness: a concrete two-pass run over one stable item. -/
theorem backfill_idempotent_for_stable_refs_witness :
    ((([((c7item, 1000) : BackfillItem × Int)]).map Prod.fst = [c7item]) ∧
      (([((c7item, 2000) : BackfillItem × Int)]).map Prod.fst = [c7item]) ∧
      (∀ it ∈ [c7item], stableItem it) ∧
      ((([] : ActivityTable).map rowKey).map refOf).Nodup) ∧
    ((run_backfill "alice" (run_backfill "alice" [] [(c7item, 1000)])
        [(c7item, 2000)]).map rowKey =
      (run_backfill "alice" [] [(c7item, 1000)]).map rowKey ∧
    (((run_backfill "alice" [] [(c7item, 1000)]).map rowKey).map refOf).Nodup) :=
  ⟨⟨rfl, rfl,
    fun it hit => by
      rw [List.mem_singleton] at hit
      rw [hit]
      exact Or.inl rfl,
    List.nodup_nil⟩,
  backfill_idempotent_for_stable_refs "alice" [] [c7item]
    [(c7item, 1000)] [(c7item, 2000)] rfl rfl
    (fun it hit => by
      rw [List.mem_singleton] at hit
      rw [hit]
      exact Or.inl rfl)
    List.nodup_nil⟩
